import Mathlib

/-!
Verification of the request pipeline in `src/aiofast/handler.py` (class
`AioFastView`).  The Python module is shallowly embedded: pure functions become
Lean functions, the external collaborators (pydantic validation, the JSON
parser, `aiohttp` request/response objects) are modelled by explicit inputs
carrying their observable outcomes, and exceptions become `Except` values.
-/

set_option autoImplicit false

deriving instance DecidableEq for Except

/-- One pydantic `ErrorDict`: `{'loc': ..., 'msg': ..., 'type': ...}`.
Location segments are kept as strings (the handler only ever builds
string segments such as `('body',)`). -/
structure FieldError where
  loc : List String
  msg : String
  errorType : String
deriving DecidableEq, Repr

/-- Python runtime values that can appear as a bound, validated surface value:
primitive ints, strings and booleans (the non-schema body path), or a pydantic
model instance (identified by an opaque tag, since the schema engine is an
external collaborator). -/
inductive PyVal where
  | vint (n : Int)
  | vstr (s : String)
  | vbool (b : Bool)
  | vmodel (tag : Nat)
deriving DecidableEq, Repr

/-- Python truthiness of a `PyVal`: `0`, `''` and `False` are falsy; any
model instance is truthy (pydantic `BaseModel` defines neither `__bool__`
nor `__len__`). -/
def truthy : PyVal → Bool
  | .vint n => n != 0
  | .vstr s => s != ""
  | .vbool b => b
  | .vmodel _ => true

/-! ### `_parse_qs` (handler.py lines 368-378)

The parsed dict maps each key either to a scalar string or to a two-element
list; `QsVal` is that value domain. -/

inductive QsVal where
  | scalar (s : String)
  | pair (first second : String)
deriving DecidableEq, Repr

/-- Python `s[0]` on a non-empty string: the one-character string holding the
first character.  (`_parse_qs` only ever indexes values produced by
`parse_qsl`, which are non-empty.) -/
def py_index0 (s : String) : String :=
  String.mk (s.data.take 1)

/-- `parsed_result[name][0]` from line 374: indexing a stored scalar string
gives its first character; indexing a stored two-element list gives its first
element. -/
def qsFst : QsVal → String
  | .scalar s => py_index0 s
  | .pair a _ => a

/-- Dict lookup on an insertion-ordered association list (`name in parsed_result`
/ `parsed_result[name]`). -/
def alLookup {α : Type} : List (String × α) → String → Option α
  | [], _ => none
  | (k, v) :: rest, key => if k = key then some v else alLookup rest key

/-- Dict assignment `d[key] = v`: overwrite in place if the key is present
(Python dicts keep the original insertion position), append otherwise. -/
def alSet {α : Type} : List (String × α) → String → α → List (String × α)
  | [], key, v => [(key, v)]
  | (k, w) :: rest, key, v =>
    if k = key then (key, v) :: rest else (k, w) :: alSet rest key v

/-- The body of the `for name, value in pairs` loop of `_parse_qs`
(lines 372-377): on a repeated key the stored value is replaced by
`[stored[0], value]`; on a fresh key the scalar is stored. -/
def parse_qs_step (acc : List (String × QsVal)) (name value : String) :
    List (String × QsVal) :=
  match alLookup acc name with
  | some old => alSet acc name (QsVal.pair (qsFst old) value)
  | none => alSet acc name (QsVal.scalar value)

/-- `_parse_qs` over the pair list produced by `parse_qsl` (lines 368-378). -/
def parse_qs (pairs : List (String × String)) : List (String × QsVal) :=
  pairs.foldl (fun acc p => parse_qs_step acc p.1 p.2) []

/-- Split a character list on a separator character (every occurrence),
keeping empty chunks, like Python `str.split`. -/
def splitOnCharList (c : Char) : List Char → List (List Char)
  | [] => [[]]
  | x :: xs =>
    let r := splitOnCharList c xs
    if x = c then [] :: r
    else
      match r with
      | [] => [[x]]
      | y :: ys => (x :: y) :: ys

/-- Split a character list at the first `'='`, like Python
`name_value.split('=', 1)`; `none` when there is no `'='`. -/
def splitFirstEq : List Char → Option (List Char × List Char)
  | [] => none
  | x :: xs =>
    if x = '=' then some ([], xs)
    else (splitFirstEq xs).map (fun p => (x :: p.1, p.2))

/-- Models `urllib.parse.parse_qsl` with its default arguments, restricted to
inputs without percent-escapes or `'+'` characters (the only inputs the
theorems below apply it to, so URL-decoding is the identity): split on `'&'`,
split each field at the first `'='`, and drop fields with no `'='` or with an
empty value (`keep_blank_values=False`). -/
def parseQsl (qs : String) : List (String × String) :=
  (splitOnCharList '&' qs.data).filterMap fun field =>
    match splitFirstEq field with
    | none => none
    | some (n, v) => if v = [] then none else some (String.mk n, String.mk v)

/-! Characterisation of `_parse_qs`: per key, the result is a left fold of
`qsStep` over that key's occurrence list. -/

/-- One duplicate-handling step of `_parse_qs`, keyed on whether the key was
already present. -/
def qsStep (o : Option QsVal) (v : String) : QsVal :=
  match o with
  | none => QsVal.scalar v
  | some q => QsVal.pair (qsFst q) v

/-- Fold `qsStep` over an occurrence list, starting from an optional
already-stored value. -/
def qsCombine (o : Option QsVal) (vs : List String) : Option QsVal :=
  vs.foldl (fun acc v => some (qsStep acc v)) o

/-- The values attached to `key` in a pair list, in order. -/
def keyOccurrences (pairs : List (String × String)) (key : String) : List String :=
  match pairs with
  | [] => []
  | (n, v) :: rest =>
    if n = key then v :: keyOccurrences rest key else keyOccurrences rest key

theorem alLookup_alSet {α : Type} (acc : List (String × α)) (key k : String) (v : α) :
    alLookup (alSet acc key v) k = if k = key then some v else alLookup acc k := by
  induction acc with
  | nil =>
    rcases eq_or_ne k key with h | h
    · simp [alSet, alLookup, h]
    · simp [alSet, alLookup, h, Ne.symm h]
  | cons hd tl ih =>
    obtain ⟨k', w⟩ := hd
    rcases eq_or_ne k' key with h1 | h1
    · subst h1
      rcases eq_or_ne k k' with h2 | h2
      · simp [alSet, alLookup, h2]
      · simp [alSet, alLookup, h2, Ne.symm h2]
    · rcases eq_or_ne k' k with h2 | h2
      · subst h2
        simp [alSet, alLookup, h1, Ne.symm h1]
      · simp [alSet, alLookup, h1, h2, ih]

theorem alLookup_parse_qs_step (acc : List (String × QsVal)) (name v k : String) :
    alLookup (parse_qs_step acc name v) k =
      if k = name then some (qsStep (alLookup acc name) v) else alLookup acc k := by
  unfold parse_qs_step qsStep
  cases h : alLookup acc name <;> simp [alLookup_alSet, h]

theorem alLookup_parse_qs_foldl (pairs : List (String × String))
    (acc : List (String × QsVal)) (k : String) :
    alLookup (pairs.foldl (fun a p => parse_qs_step a p.1 p.2) acc) k =
      qsCombine (alLookup acc k) (keyOccurrences pairs k) := by
  induction pairs generalizing acc with
  | nil => rfl
  | cons p ps ih =>
    obtain ⟨n, v⟩ := p
    simp only [List.foldl_cons]
    rw [ih]
    rcases eq_or_ne k n with h | h
    · subst h
      rw [alLookup_parse_qs_step, if_pos rfl]
      simp [keyOccurrences, qsCombine]
    · rw [alLookup_parse_qs_step, if_neg h]
      simp [keyOccurrences, Ne.symm h]

theorem qsCombine_some_pair (vs : List String) (a b : String) :
    qsCombine (some (QsVal.pair a b)) vs = some (QsVal.pair a (vs.getLastD b)) := by
  induction vs generalizing b with
  | nil => rfl
  | cons v vs ih =>
    rw [List.getLastD_cons]
    exact ih v

theorem alLookup_parse_qs (pairs : List (String × String)) (k : String) :
    alLookup (parse_qs pairs) k = qsCombine none (keyOccurrences pairs k) :=
  alLookup_parse_qs_foldl pairs [] k

/-! ### Body fetching and per-surface validation (handler.py lines 264-366) -/

/-- The state of the incoming request that `_fetch_body_data` inspects:
the `Content-Type` header, the outcome of the external JSON parser on the
raw body (`none` models `json.JSONDecodeError`), and the decoded body text
(`request.text()`).  `unquote` is modelled as the identity, valid for bodies
without percent-escapes. -/
structure BodyRequest where
  contentType : Option String
  jsonResult : Option PyVal
  text : String

/-- Raw body data returned by `_fetch_body_data`, by content type. -/
inductive FetchedBody where
  | jsonVal (v : PyVal)
  | textVal (s : String)
  | formVal (d : List (String × QsVal))
deriving DecidableEq, Repr

/-- The three exceptions `_fetch_body_data` can raise into
`_validate_body_data`. -/
inductive FetchErr where
  | missingContentType
  | unexpectedContentType (ct : String)
  | jsonDecodeError
deriving DecidableEq, Repr

/-- `_fetch_body_data` (lines 349-366): dispatch on the `Content-Type`
header. -/
def fetch_body_data (req : BodyRequest) : Except FetchErr FetchedBody :=
  match req.contentType with
  | none => .error .missingContentType
  | some ct =>
    if ct = "application/json" then
      match req.jsonResult with
      | some v => .ok (.jsonVal v)
      | none => .error .jsonDecodeError
    else if ct = "text/plain" then .ok (.textVal req.text)
    else if ct = "application/x-www-form-urlencoded" then
      .ok (.formVal (parse_qs (parseQsl req.text)))
    else .error (.unexpectedContentType ct)

/-- Outcome of the external pydantic call `schema(**data)` for one surface:
either a model instance (opaque tag) or `ValidationError.errors()`. -/
inductive PydOutcome where
  | ok (modelTag : Nat)
  | fail (es : List FieldError)
deriving Repr

/-- Result of one surface validator: the Python pair
`(result, None) | (None, errors)` folded into a sum. -/
inductive VOut where
  | val (v : PyVal)
  | errs (es : List FieldError)
deriving DecidableEq, Repr

/-- `_validate_pydantic_schema` (lines 332-341), with the external schema
call's outcome supplied as input. -/
def validate_pydantic_schema : PydOutcome → VOut
  | .ok m => .val (PyVal.vmodel m)
  | .fail es => .errs es

/-- The primitive body types of the `pydantic_error_map` in
`_get_pydantic_error_type` (lines 439-451); `pother` carries `str(cls)` of an
unmapped type. -/
inductive PrimKind where
  | pint
  | pstr
  | pfloat
  | pdict
  | pbytes
  | pbool
  | pother (typeName : String)
deriving DecidableEq, Repr

/-- `(msg_template, get_exc_type)` of the pydantic error class chosen by
`_get_pydantic_error_type`; for an unmapped type a class named `TypeError`
is synthesised, whose `get_exc_type` is `'type_error.type'`. -/
def pydantic_error_map : PrimKind → String × String
  | .pint => ("value is not a valid integer", "type_error.integer")
  | .pstr => ("str type expected", "type_error.str")
  | .pfloat => ("value is not a valid float", "type_error.float")
  | .pdict => ("value is not a valid dict", "type_error.dict")
  | .pbytes => ("byte type expected", "type_error.bytes")
  | .pbool => ("value could not be parsed to a boolean", "type_error.bool")
  | .pother typeName => ("value is not a " ++ typeName, "type_error.type")

/-- `_gef_pydantic_like_answer_by_class_type_error` (lines 421-428). -/
def gef_pydantic_like_answer_by_class_type_error (loc : List String)
    (kind : PrimKind) : List FieldError :=
  [⟨loc, (pydantic_error_map kind).1, (pydantic_error_map kind).2⟩]

/-- `_gef_pydantic_like_answer_by_custom_message` (lines 430-437): the
dynamically created class is named `TypeError` and subclasses
`PydanticTypeError`, so pydantic's `get_exc_type` yields
`'type_error.type'`. -/
def gef_pydantic_like_answer_by_custom_message (loc : List String)
    (msg : String) : List FieldError :=
  [⟨loc, msg, "type_error.type"⟩]

/-- The declared `body` parameter type together with the behaviour of the
external calls it triggers: a pydantic model type (`ModelMetaclass` branch,
with the schema call's outcome), or a plain type whose direct construction
`body_type(fetched_body_data)` is modelled by `construct` (`.error` models a
`ValueError`/`TypeError` escaping the constructor). -/
inductive BodyAnn where
  | modelT (pyd : PydOutcome)
  | primT (kind : PrimKind) (construct : FetchedBody → Except Unit PyVal)

/-- `_validate_body_data` (lines 293-330). -/
def validate_body_data (ba : BodyAnn) (req : BodyRequest) : VOut :=
  match fetch_body_data req with
  | .error .missingContentType =>
    .errs (gef_pydantic_like_answer_by_custom_message ["body"]
      "missing Content-Type header")
  | .error (.unexpectedContentType ct) =>
    .errs (gef_pydantic_like_answer_by_custom_message ["body"]
      ("cannot fetch body data. Content-Type '" ++ ct ++ "' not allowed here."))
  | .error .jsonDecodeError =>
    .errs (gef_pydantic_like_answer_by_custom_message ["body"] "body is not a json")
  | .ok fetched =>
    match ba with
    | .modelT pyd => validate_pydantic_schema pyd
    | .primT kind construct =>
      match construct fetched with
      | .ok v => .val v
      | .error _ => .errs (gef_pydantic_like_answer_by_class_type_error ["body"] kind)

/-! ### `_extract_data` (handler.py lines 202-237) -/

/-- `_ExtractedAnnotations` (lines 38-43), with each declared data surface
carrying the observable outcome of its external validation inputs, and
`response` recording whether the declared annotated-response type is exactly
`web.Response` (`some true`) or some other type (`some false`). -/
structure ExtractAnnotations where
  headers : Option PydOutcome := none
  match_info : Option PydOutcome := none
  query_params : Option PydOutcome := none
  body : Option BodyAnn := none
  response : Option Bool := none

/-- `_ExtractedData` (lines 33-35).  The `validation_errors` values are
`Option`s because line 235 stores the Python `None` returned alongside a
successful-but-falsy body value (the `cast` there is a no-op at runtime). -/
structure ExtractedData where
  method_params : List (String × PyVal)
  validation_errors : List (String × Option (List FieldError))
deriving DecidableEq, Repr

/-- One `if result: method_params[...] = result else: validation_errors[...] =
error` block of `_extract_data`: the check is Python truthiness of the result,
and on the else-branch the (possibly `None`) error object is stored. -/
def bind_surface (name : String) :
    VOut → List (String × PyVal) × List (String × Option (List FieldError))
  | .val v => if truthy v then ([(name, v)], []) else ([], [(name, none)])
  | .errs es => ([], [(name, some es)])

/-- `bind_surface` lifted to an undeclared-or-declared surface. -/
def surface_data (name : String) :
    Option VOut → List (String × PyVal) × List (String × Option (List FieldError))
  | none => ([], [])
  | some vo => bind_surface name vo

/-- `_extract_data` (lines 202-237): the four surfaces are processed in
source order and their contributions concatenated (each surface name is
distinct, so dict update equals concatenation). -/
def extract_data (ann : ExtractAnnotations) (req : BodyRequest) : ExtractedData :=
  let h := surface_data "headers" (ann.headers.map validate_pydantic_schema)
  let mi := surface_data "match_info" (ann.match_info.map validate_pydantic_schema)
  let qp := surface_data "query_params" (ann.query_params.map validate_pydantic_schema)
  let b := surface_data "body" (ann.body.map (fun ba => validate_body_data ba req))
  ⟨h.1 ++ mi.1 ++ qp.1 ++ b.1, h.2 ++ mi.2 ++ qp.2 ++ b.2⟩

/-! ### Response objects and `_handle_response` (handler.py lines 131-262) -/

/-- `_ResponseSchema` (lines 46-56): the JSON envelope. -/
structure ResponseSchema where
  errors : Option (List (String × Option (List FieldError))) := none
  result : Option PyVal := none
deriving DecidableEq, Repr

/-- An `aiohttp` `web.Response` as this layer observes it: `rid` models object
identity (two responses are the same Python object iff their `rid`s agree),
`status` the HTTP status, and `text` the serialized envelope
(`schema.json(...)` is modelled as the envelope itself; serialization of
these envelopes always succeeds). -/
structure WireResponse where
  rid : Nat
  status : Int := 200
  contentType : Option String := none
  text : Option ResponseSchema := none
deriving DecidableEq, Repr

/-- `Response()` constructed inside the pipeline (fresh instance, status 200). -/
def freshResponse : WireResponse := ⟨0, 200, none, none⟩

/-- The `Response()` constructed at line 108 and injected into the handler's
`response` parameter; its `rid` is distinct from every handler-created
response. -/
def injectedResponse : WireResponse := ⟨1, 200, none, none⟩

/-- `_default_response_success_http_code` (line 90). -/
def defaultResponseSuccessHttpCode : Int := 200

/-- `_return_json_response` (lines 187-200): set content type and body, and
`if status: response.set_status(status)` — any non-zero status is truthy and
overwrites the response's current status. -/
def return_json_response (response : WireResponse) (schema : ResponseSchema)
    (status : Int) : WireResponse :=
  { response with
    contentType := some "application/json"
    text := some schema
    status := if status ≠ 0 then status else response.status }

/-- The runtime shape of the second tuple element handed to
`_get_handler_response_http_code`: a plain `int`; a class subclassing
`HTTPException` (carrying its `status_code`); an *instance* of an
`HTTPException` subclass (`issubclass` raises `TypeError` on non-classes); a
class not subclassing `HTTPException`; or any other non-class value. -/
inductive HttpCodeIndicator where
  | intCode (n : Int)
  | excClass (statusCode : Int)
  | excInstance (statusCode : Int)
  | otherClass
  | otherValue
deriving DecidableEq, Repr

/-- The fatal configuration/programming errors of handler.py's exceptions
module that the embedded pipeline can raise. -/
inductive FatalError where
  | wrongAnnotatedWebResponse
  | handlerResultType
  | unexpectedHttpCode
  | notOriginalResponse
  | unhandledResponseType
deriving DecidableEq, Repr

/-- Tail of `_get_handler_response_http_code` after the existing-response
check (lines 247-262): `isinstance(code, int)` first, then
`issubclass(code, HTTPException)`, which raises `TypeError` on a non-class
(caught and re-raised as `UnexpectedHttpCodeError`) and yields `False` for a
non-exception class. -/
def unchecked_http_code_resolve : HttpCodeIndicator → Except FatalError Int
  | .intCode n => .ok n
  | .excClass statusCode => .ok statusCode
  | .excInstance _ => .error .unexpectedHttpCode
  | .otherClass => .error .unexpectedHttpCode
  | .otherValue => .error .unexpectedHttpCode

/-- `_get_handler_response_http_code` (lines 239-262). -/
def get_handler_response_http_code (existingResponse : Option WireResponse)
    (uncheckedHttpCode : HttpCodeIndicator) : Except FatalError Int :=
  match existingResponse with
  | some r =>
    if r.status ≠ defaultResponseSuccessHttpCode then .ok r.status
    else unchecked_http_code_resolve uncheckedHttpCode
  | none => unchecked_http_code_resolve uncheckedHttpCode

/-- The handler's return payload after tuple unpacking, classified by runtime
shape as in `_get_handler_response_type` (lines 177-185): a pydantic model
instance, a `StreamResponse`, or anything else. -/
inductive HandlerPayload where
  | model (tag : Nat)
  | web (r : WireResponse)
  | other
deriving DecidableEq, Repr

/-- The handler's raw return value: a non-tuple payload, a 2-tuple
`(payload, status indicator)`, or a tuple that fails to unpack into two
elements (raising `ValueError` at line 141). -/
inductive MethodResponse where
  | plain (p : HandlerPayload)
  | tuple2 (p : HandlerPayload) (code : HttpCodeIndicator)
  | tupleBad
deriving DecidableEq, Repr

/-- `_handle_response` (lines 131-175). -/
def handle_response (methodResponse : MethodResponse)
    (handlerResponseSchema : ResponseSchema)
    (annotatedResponse : Option WireResponse) : Except FatalError WireResponse :=
  let unpacked : Except FatalError (HandlerPayload × Int) :=
    match methodResponse with
    | .plain p => .ok (p, defaultResponseSuccessHttpCode)
    | .tuple2 p c =>
      match get_handler_response_http_code annotatedResponse c with
      | .ok n => .ok (p, n)
      | .error e => .error e
    | .tupleBad => .error .handlerResultType
  match unpacked with
  | .error e => .error e
  | .ok (p, responseHttpCode) =>
    match p with
    | .model m =>
      let schema := { handlerResponseSchema with result := some (PyVal.vmodel m) }
      let resp :=
        match annotatedResponse with
        | some r => r
        | none => freshResponse
      .ok (return_json_response resp schema responseHttpCode)
    | .web r =>
      match annotatedResponse with
      | some a => if a.rid ≠ r.rid then .error .notOriginalResponse else .ok r
      | none => .ok r
    | .other => .error .unhandledResponseType

/-! ### Method resolution and the request pipeline (handler.py lines 92-129,
459-468) -/

/-- `aiohttp.hdrs.METH_ALL`. -/
def METH_ALL : List String :=
  ["CONNECT", "HEAD", "GET", "DELETE", "OPTIONS", "PATCH", "POST", "PUT", "TRACE"]

/-- `str.lower()` for the ASCII method tokens. -/
def strToLower (s : String) : String :=
  String.mk (s.data.map Char.toLower)

/-- The `HTTPMethodNotAllowed` exception raised by `_raise_allowed_methods`:
its `status_code` is 405 and it carries the request method and the allowed
method set. -/
structure MethodNotAllowedExc where
  statusCode : Int
  method : String
  allowedMethods : List String
deriving DecidableEq, Repr

/-- `_raise_allowed_methods` (lines 459-461): probe every standard token for a
matching attribute on the handler object (`hasAttr` models `hasattr(self, ·)`). -/
def raise_allowed_methods (hasAttr : String → Bool) (method : String) :
    MethodNotAllowedExc :=
  ⟨405, method, METH_ALL.filter (fun m => hasAttr (strToLower m))⟩

/-- `_get_handler_method` (lines 463-468): `getattr(self, method.lower(), None)`,
with the attribute modelled by its name. -/
def get_handler_method (hasAttr : String → Bool) (method : String) : Option String :=
  if hasAttr (strToLower method) then some (strToLower method) else none

/-- An exception propagating out of `_handle_incoming_request`: either the
`HTTPMethodNotAllowed` (rendered by the transport as a 405 with an `Allow`
header) or one of the fatal configuration errors. -/
inductive PipelineError where
  | methodNotAllowed (exc : MethodNotAllowedExc)
  | fatal (e : FatalError)
deriving DecidableEq, Repr

/-- `_handle_incoming_request` (lines 95-129).  The handler itself is an
external input: given the bound `method_params` and the injected response
object (passed separately here rather than inside the params dict), it
returns its raw return value together with the injected response's state
after the call (the handler may have mutated its status).  The returned
`Bool` records whether the handler was invoked. -/
def handle_incoming_request (hasAttr : String → Bool) (method : String)
    (ann : ExtractAnnotations) (req : BodyRequest)
    (handler : List (String × PyVal) → Option WireResponse →
      MethodResponse × Option WireResponse) :
    Except PipelineError (WireResponse × Bool) :=
  if method ∉ METH_ALL then
    .error (.methodNotAllowed (raise_allowed_methods hasAttr method))
  else
    match get_handler_method hasAttr method with
    | none => .error (.methodNotAllowed (raise_allowed_methods hasAttr method))
    | some _ =>
      match ann.response with
      | some false => .error (.fatal .wrongAnnotatedWebResponse)
      | ra =>
        let response : Option WireResponse :=
          if ra = some true then some injectedResponse else none
        let ed := extract_data ann req
        if ed.validation_errors ≠ [] then
          .ok (return_json_response freshResponse
            { errors := some ed.validation_errors, result := none } 400, false)
        else
          match handler ed.method_params response with
          | (mr, annotatedAfter) =>
            match handle_response mr {} annotatedAfter with
            | .error e => .error (.fatal e)
            | .ok r => .ok (r, true)

/-! ### Specification-side description of the error accumulation

These definitions follow the spec's words ("exactly one entry per failing
surface", plus the observed null entry for a falsy bound value) so they can be
compared with `extract_data`, which is translated from the source. -/

/-- Spec-side description of one declared surface's contribution to the
validation-errors map: its error list when the validator failed, a null entry
when the validated value is falsy, nothing when it is bound. -/
def spec_error_entry (name : String) :
    VOut → List (String × Option (List FieldError))
  | .errs es => [(name, some es)]
  | .val v => if truthy v then [] else [(name, none)]

/-- `spec_error_entry` lifted to an optionally declared surface. -/
def spec_surface (name : String) :
    Option VOut → List (String × Option (List FieldError))
  | none => []
  | some vo => spec_error_entry name vo

/-- Spec-side description of the whole validation-errors map, surface by
surface in source order. -/
def spec_errors (ann : ExtractAnnotations) (req : BodyRequest) :
    List (String × Option (List FieldError)) :=
  spec_surface "headers" (ann.headers.map validate_pydantic_schema) ++
  spec_surface "match_info" (ann.match_info.map validate_pydantic_schema) ++
  spec_surface "query_params" (ann.query_params.map validate_pydantic_schema) ++
  spec_surface "body" (ann.body.map (fun ba => validate_body_data ba req))

/-- Whether a surface validator produced errors (as opposed to a value). -/
def surface_failed : VOut → Bool
  | .errs _ => true
  | .val _ => false

/-- Whether at least one declared surface's validator produced errors. -/
def any_validator_failure (ann : ExtractAnnotations) (req : BodyRequest) : Bool :=
  (ann.headers.map (fun p => surface_failed (validate_pydantic_schema p))).getD false ||
  (ann.match_info.map (fun p => surface_failed (validate_pydantic_schema p))).getD false ||
  (ann.query_params.map (fun p => surface_failed (validate_pydantic_schema p))).getD false ||
  (ann.body.map (fun ba => surface_failed (validate_body_data ba req))).getD false

theorem surface_data_snd (name : String) (o : Option VOut) :
    (surface_data name o).2 = spec_surface name o := by
  cases o with
  | none => rfl
  | some vo =>
    cases vo with
    | errs es => rfl
    | val v =>
      simp only [surface_data, bind_surface, spec_surface, spec_error_entry]
      cases truthy v <;> simp

theorem extract_data_validation_errors (ann : ExtractAnnotations) (req : BodyRequest) :
    (extract_data ann req).validation_errors = spec_errors ann req := by
  simp [extract_data, spec_errors, surface_data_snd]

theorem spec_errors_ne_nil (ann : ExtractAnnotations) (req : BodyRequest)
    (h : any_validator_failure ann req = true) : spec_errors ann req ≠ [] := by
  intro hnil
  rw [spec_errors] at hnil
  rw [any_validator_failure] at h
  simp only [Bool.or_eq_true] at h
  rcases h with ((hh | hm) | hq) | hb
  · cases hh' : ann.headers with
    | none => rw [hh'] at hh; simp at hh
    | some p =>
      rw [hh'] at hh hnil
      cases p with
      | ok m => simp [surface_failed, validate_pydantic_schema] at hh
      | fail es =>
        simp [spec_surface, spec_error_entry, validate_pydantic_schema,
          List.append_eq_nil] at hnil
  · cases hm' : ann.match_info with
    | none => rw [hm'] at hm; simp at hm
    | some p =>
      rw [hm'] at hm hnil
      cases p with
      | ok m => simp [surface_failed, validate_pydantic_schema] at hm
      | fail es =>
        simp [spec_surface, spec_error_entry, validate_pydantic_schema,
          List.append_eq_nil] at hnil
  · cases hq' : ann.query_params with
    | none => rw [hq'] at hq; simp at hq
    | some p =>
      rw [hq'] at hq hnil
      cases p with
      | ok m => simp [surface_failed, validate_pydantic_schema] at hq
      | fail es =>
        simp [spec_surface, spec_error_entry, validate_pydantic_schema,
          List.append_eq_nil] at hnil
  · cases hb' : ann.body with
    | none => rw [hb'] at hb; simp at hb
    | some ba =>
      rw [hb'] at hb hnil
      simp only [Option.map_some', Option.getD_some] at hb hnil
      cases hv : validate_body_data ba req with
      | val v => rw [hv] at hb; simp [surface_failed] at hb
      | errs es =>
        rw [hv] at hnil
        simp [spec_surface, spec_error_entry, List.append_eq_nil] at hnil

/-! ### Claims about `_parse_qs` (C3, C10) -/

/-- C3 counterexample: the claim says `'a=1&a=2&a=3'` parses to
`{a: ["1","2"]}` with the third occurrence silently dropped; the code instead
re-runs the duplicate branch, producing `{a: ["1","3"]}`. -/
theorem claim3_counterexample :
    parse_qs (parseQsl "a=1&a=2&a=3") = [("a", QsVal.pair "1" "3")] ∧
    parse_qs (parseQsl "a=1&a=2&a=3") ≠ [("a", QsVal.pair "1" "2")] :=
  ⟨rfl, by decide⟩

/-- C3 (amended): for each key the first occurrence is stored as a scalar;
every later occurrence (the second, third, ...) replaces the stored value
with the two-element list `[stored[0], value]`, so the final value for a
key with two or more (non-empty) occurrences is `[first character of the
first value, last value]` — and `'a=1&a=2&a=3'` parses to `{a: ["1","3"]}`,
the third occurrence overwriting the second slot rather than being dropped. -/
theorem claim3_amended :
    (∀ (pairs : List (String × String)) (key v : String),
      keyOccurrences pairs key = [v] →
      alLookup (parse_qs pairs) key = some (QsVal.scalar v)) ∧
    (∀ (pairs : List (String × String)) (key v1 v2 : String) (vs : List String),
      keyOccurrences pairs key = v1 :: v2 :: vs → v1 ≠ "" →
      alLookup (parse_qs pairs) key =
        some (QsVal.pair (py_index0 v1) (vs.getLastD v2))) ∧
    fetch_body_data ⟨some "application/x-www-form-urlencoded", none, "a=1&a=2&a=3"⟩ =
      .ok (.formVal [("a", QsVal.pair "1" "3")]) := by
  refine ⟨?_, ?_, rfl⟩
  · intro pairs key v hocc
    rw [alLookup_parse_qs, hocc]
    rfl
  · intro pairs key v1 v2 vs hocc hne
    rw [alLookup_parse_qs, hocc]
    exact qsCombine_some_pair vs (py_index0 v1) v2

/-- C3 witness: the amended statement evaluated at concrete form bodies. -/
theorem claim3_witness :
    alLookup (parse_qs [("b", "9")]) "b" = some (QsVal.scalar "9") ∧
    alLookup (parse_qs [("a", "1"), ("a", "2"), ("a", "3")]) "a" =
      some (QsVal.pair "1" "3") :=
  ⟨claim3_amended.1 [("b", "9")] "b" "9" rfl,
   claim3_amended.2.1 [("a", "1"), ("a", "2"), ("a", "3")] "a" "1" "2" ["3"]
     rfl (by decide)⟩

/-- C10: when a key occurs exactly twice and its first value is longer than
one character, the parsed mapping binds the key to `[first character of the
first value, second value]` — the stored scalar is indexed at position 0 —
so `'a=10&a=2'` parses to `{a: ["1","2"]}`. -/
theorem claim10_theorem :
    (∀ (pairs : List (String × String)) (key v1 v2 : String),
      keyOccurrences pairs key = [v1, v2] → 1 < v1.length →
      alLookup (parse_qs pairs) key = some (QsVal.pair (py_index0 v1) v2)) ∧
    fetch_body_data ⟨some "application/x-www-form-urlencoded", none, "a=10&a=2"⟩ =
      .ok (.formVal [("a", QsVal.pair "1" "2")]) := by
  refine ⟨?_, rfl⟩
  intro pairs key v1 v2 hocc hlen
  rw [alLookup_parse_qs, hocc]
  rfl

/-- C10 witness: the duplicate-key statement evaluated on the body
`'a=10&a=2'`. -/
theorem claim10_witness :
    alLookup (parse_qs [("a", "10"), ("a", "2")]) "a" = some (QsVal.pair "1" "2") :=
  claim10_theorem.1 [("a", "10"), ("a", "2")] "a" "10" "2" rfl (by decide)

/-! ### Claim C2: the per-surface bound-xor-errors invariant -/

/-- C2: the claim (and handler.py's own type hints, which declare
`validation_errors: dict[str, list[ErrorDict]]` and validator results of
shape `(value, None) | (None, errors)`) say each declared surface ends up
either bound or carrying an error list.  At a primitive-typed body whose
validated value is falsy this fails: with body type `int` and `text/plain`
body `"0"`, `int("0") = 0` succeeds (the `construct` argument models that
external call), but `if body_result:` is false, so the surface is neither
bound nor given an error list — `validation_errors['body']` is the Python
`None`, and the request is answered 400 without invoking the handler. -/
theorem claim2_theorem :
    validate_body_data (.primT .pint (fun _ => .ok (PyVal.vint 0)))
        ⟨some "text/plain", none, "0"⟩ = .val (PyVal.vint 0) ∧
    extract_data { body := some (.primT .pint (fun _ => .ok (PyVal.vint 0))) }
        ⟨some "text/plain", none, "0"⟩ = ⟨[], [("body", none)]⟩ ∧
    handle_incoming_request (fun _ => true) "POST"
        { body := some (.primT .pint (fun _ => .ok (PyVal.vint 0))) }
        ⟨some "text/plain", none, "0"⟩ (fun _ _ => (.plain .other, none)) =
      .ok (⟨0, 400, some "application/json", some ⟨some [("body", none)], none⟩⟩, false) :=
  ⟨rfl, rfl, rfl⟩

/-! ### Claim C1: the early-exit 400 envelope -/

/-- C1 counterexample: with a failing headers schema and a primitive body that
validates to the falsy `0`, only the headers surface produces validation
errors, yet the errors map gets two entries — `headers` with its list and a
spurious null-valued `body` entry — so it does not contain exactly one entry
per failing surface. -/
theorem claim1_counterexample :
    (extract_data
        { headers := some (.fail [⟨["name"], "field required", "value_error.missing"⟩]),
          body := some (.primT .pint (fun _ => .ok (PyVal.vint 0))) }
        ⟨some "text/plain", none, "0"⟩).validation_errors =
      [("headers", some [⟨["name"], "field required", "value_error.missing"⟩]),
       ("body", none)] ∧
    surface_failed (validate_body_data (.primT .pint (fun _ => .ok (PyVal.vint 0)))
        ⟨some "text/plain", none, "0"⟩) = false ∧
    ([("headers", some [(⟨["name"], "field required", "value_error.missing"⟩ : FieldError)]),
      ("body", (none : Option (List FieldError)))].map Prod.fst) ≠ ["headers"] :=
  ⟨rfl, rfl, by decide⟩

/-- C1 (amended): for every request in which at least one declared surface
produces validation errors, the handler is never invoked, the pipeline
returns HTTP 400 with a fresh envelope whose `result` stays unset, and the
errors map holds one entry per failing surface (all surfaces attempted,
errors accumulated) **plus a null-valued entry for each declared surface
whose successfully validated value is falsy** (the truthiness check of
`_extract_data` files such surfaces under `validation_errors` with a `None`
error object). -/
theorem claim1_amended (hasAttr : String → Bool) (method : String)
    (ann : ExtractAnnotations) (req : BodyRequest)
    (handler : List (String × PyVal) → Option WireResponse →
      MethodResponse × Option WireResponse)
    (hmeth : method ∈ METH_ALL) (hattr : hasAttr (strToLower method) = true)
    (hresp : ann.response ≠ some false)
    (hfail : any_validator_failure ann req = true) :
    handle_incoming_request hasAttr method ann req handler =
      .ok (⟨0, 400, some "application/json",
            some ⟨some (spec_errors ann req), none⟩⟩, false) := by
  have hval : (extract_data ann req).validation_errors = spec_errors ann req :=
    extract_data_validation_errors ann req
  have hne : (extract_data ann req).validation_errors ≠ [] := by
    rw [hval]; exact spec_errors_ne_nil ann req hfail
  simp only [handle_incoming_request, get_handler_method, hattr, if_true,
    if_neg (not_not_intro hmeth)]
  cases hr : ann.response with
  | none =>
    rw [if_pos hne, hval]
    rfl
  | some b =>
    cases b with
    | false => exact absurd hr hresp
    | true =>
      rw [if_pos hne, hval]
      rfl

/-- C1 witness: the amended statement at a request whose headers schema
fails. -/
theorem claim1_witness :
    handle_incoming_request (fun _ => true) "GET"
        { headers := some (.fail [⟨["x"], "field required", "value_error.missing"⟩]) }
        ⟨none, none, ""⟩ (fun _ _ => (.plain .other, none)) =
      .ok (⟨0, 400, some "application/json",
            some ⟨some [("headers",
              some [⟨["x"], "field required", "value_error.missing"⟩])], none⟩⟩,
          false) :=
  claim1_amended _ _ _ _ _ (by decide) rfl (by decide) rfl

/-! ### Claims C4, C5, C6, C9: response normalization -/

/-- C4: status-code precedence for 2-tuple returns — a mutated annotated
response's status wins over the tuple indicator; otherwise a plain int is
used as-is, an `HTTPException` subclass contributes its `status_code`, and
anything else (an exception *instance*, a non-exception class, a non-class)
raises the fatal unexpected-http-code error.  `(model, 201)` with no
annotated response yields 201; with an annotated response mutated to 403 it
yields 403. -/
theorem claim4_theorem :
    (∀ (r : WireResponse) (c : HttpCodeIndicator), r.status ≠ 200 →
      get_handler_response_http_code (some r) c = .ok r.status) ∧
    (∀ n : Int, get_handler_response_http_code none (.intCode n) = .ok n) ∧
    (∀ (r : WireResponse) (n : Int), r.status = 200 →
      get_handler_response_http_code (some r) (.intCode n) = .ok n) ∧
    (∀ s : Int, get_handler_response_http_code none (.excClass s) = .ok s) ∧
    (∀ s : Int,
      get_handler_response_http_code none (.excInstance s) =
        .error .unexpectedHttpCode) ∧
    (get_handler_response_http_code none .otherClass = .error .unexpectedHttpCode) ∧
    (get_handler_response_http_code none .otherValue = .error .unexpectedHttpCode) ∧
    (∀ (m : Nat) (env : ResponseSchema),
      handle_response (.tuple2 (.model m) (.intCode 201)) env none =
        .ok ⟨0, 201, some "application/json", some ⟨env.errors, some (.vmodel m)⟩⟩) ∧
    (∀ (m : Nat) (env : ResponseSchema) (a : WireResponse), a.status = 403 →
      handle_response (.tuple2 (.model m) (.intCode 201)) env (some a) =
        .ok ⟨a.rid, 403, some "application/json", some ⟨env.errors, some (.vmodel m)⟩⟩) ∧
    (∀ (r : WireResponse) (s : Int), r.status = 200 →
      get_handler_response_http_code (some r) (.excClass s) = .ok s) ∧
    (∀ r : WireResponse, r.status = 200 →
      get_handler_response_http_code (some r) .otherValue =
        .error .unexpectedHttpCode) := by
  refine ⟨?_, fun n => rfl, ?_, fun s => rfl, fun s => rfl, rfl, rfl, fun m env => rfl,
    ?_, ?_, ?_⟩
  · intro r c h
    simp [get_handler_response_http_code, defaultResponseSuccessHttpCode, h]
  · intro r n h
    simp [get_handler_response_http_code, defaultResponseSuccessHttpCode, h,
      unchecked_http_code_resolve]
  · intro m env a h
    simp [handle_response, get_handler_response_http_code,
      defaultResponseSuccessHttpCode, return_json_response, h]
  · intro r s h
    simp [get_handler_response_http_code, defaultResponseSuccessHttpCode, h,
      unchecked_http_code_resolve]
  · intro r h
    simp [get_handler_response_http_code, defaultResponseSuccessHttpCode, h,
      unchecked_http_code_resolve]

/-- C4 witness: the annotated-override and tuple cases at concrete inputs. -/
theorem claim4_witness :
    get_handler_response_http_code (some ⟨1, 403, none, none⟩) (.intCode 201) =
      .ok 403 ∧
    get_handler_response_http_code (some ⟨1, 200, none, none⟩) (.intCode 201) =
      .ok 201 ∧
    handle_response (.tuple2 (.model 5) (.intCode 201)) {} (some ⟨1, 403, none, none⟩) =
      .ok ⟨1, 403, some "application/json", some ⟨none, some (.vmodel 5)⟩⟩ :=
  ⟨claim4_theorem.1 ⟨1, 403, none, none⟩ (.intCode 201) (by decide),
   claim4_theorem.2.2.1 ⟨1, 200, none, none⟩ 201 rfl,
   claim4_theorem.2.2.2.2.2.2.2.2.1 5 {} ⟨1, 403, none, none⟩ rfl⟩

/-- C5 counterexample: a handler that mutated the injected response's status
to 403 and returned a bare model produces status **200**, not 403 — the
JSON-return step runs `set_status(200)` (200 is truthy) and overwrites the
mutation, contradicting the claim's "produces status 403". -/
theorem claim5_counterexample :
    handle_response (.plain (.model 7)) {} (some ⟨1, 403, none, none⟩) =
      .ok ⟨1, 200, some "application/json", some ⟨none, some (.vmodel 7)⟩⟩ ∧
    (⟨1, 200, some "application/json", some ⟨none, some (.vmodel 7)⟩⟩ :
      WireResponse).status ≠ 403 :=
  ⟨rfl, by decide⟩

/-- C5 (amended): for every non-tuple schema-model return the emitted
response's status code is 200 unconditionally — the default success code is
written back by `set_status`, so even an annotated response whose status the
handler mutated (e.g. to 403) is reset to 200. -/
theorem claim5_amended (m : Nat) (env : ResponseSchema) (ar : Option WireResponse) :
    handle_response (.plain (.model m)) env ar =
      .ok ⟨(ar.getD freshResponse).rid, 200, some "application/json",
           some ⟨env.errors, some (.vmodel m)⟩⟩ := by
  cases ar <;> rfl

/-- C6: with an annotated response injected and a transport-response payload,
the fatal not-original-response error is raised iff the returned object is
not the same instance as the injected one; the same instance is returned
unchanged. -/
theorem claim6_theorem (a r : WireResponse) (env : ResponseSchema) :
    (handle_response (.plain (.web r)) env (some a) = .error .notOriginalResponse ↔
      a.rid ≠ r.rid) ∧
    (a.rid = r.rid → handle_response (.plain (.web r)) env (some a) = .ok r) := by
  constructor
  · by_cases h : a.rid = r.rid
    · simp [handle_response, h]
    · simp [handle_response, h]
  · intro h
    simp [handle_response, h]

/-- C6 witness: returning the same instance (even after mutating it) is
passed through unchanged. -/
theorem claim6_witness :
    handle_response (.plain (.web ⟨5, 204, none, none⟩)) {} (some ⟨5, 204, none, none⟩) =
      .ok ⟨5, 204, none, none⟩ :=
  (claim6_theorem ⟨5, 204, none, none⟩ ⟨5, 204, none, none⟩ {}).2 rfl

/-- C9: a 2-tuple whose status indicator is an *instance* of an
HTTP-exception type (rather than the class) makes the pipeline raise the
fatal unexpected-http-code error instead of using the instance's status —
`issubclass` only accepts classes and its `TypeError` is re-raised as
`UnexpectedHttpCodeError`.  (Stated where the indicator is actually
consulted: no annotated response, or an annotated response still at the
default status 200.) -/
theorem claim9_theorem (p : HandlerPayload) (s : Int) (env : ResponseSchema) :
    (handle_response (.tuple2 p (.excInstance s)) env none =
      .error .unexpectedHttpCode) ∧
    (∀ a : WireResponse, a.status = 200 →
      handle_response (.tuple2 p (.excInstance s)) env (some a) =
        .error .unexpectedHttpCode) := by
  refine ⟨rfl, ?_⟩
  intro a h
  simp [handle_response, get_handler_response_http_code,
    defaultResponseSuccessHttpCode, unchecked_http_code_resolve, h]

/-- C9 witness: `(model, HTTPNotFound())` with the injected response left at
status 200 is a fatal error. -/
theorem claim9_witness :
    handle_response (.tuple2 (.model 3) (.excInstance 404)) {} (some ⟨1, 200, none, none⟩) =
      .error .unexpectedHttpCode :=
  (claim9_theorem (.model 3) 404 {}).2 ⟨1, 200, none, none⟩ rfl

/-! ### Claims C7, C8: method dispatch and body content errors -/

/-- C7: for a request method that is not a recognized HTTP token, or has no
matching attribute on the handler object, the pipeline raises
`HTTPMethodNotAllowed` (status 405) whose allowed-methods payload is exactly
the standard tokens for which a matching handler callable exists (probed over
`METH_ALL`). -/
theorem claim7_theorem (hasAttr : String → Bool) (method : String)
    (ann : ExtractAnnotations) (req : BodyRequest)
    (handler : List (String × PyVal) → Option WireResponse →
      MethodResponse × Option WireResponse)
    (h : method ∉ METH_ALL ∨ hasAttr (strToLower method) = false) :
    handle_incoming_request hasAttr method ann req handler =
      .error (.methodNotAllowed
        ⟨405, method, METH_ALL.filter (fun m => hasAttr (strToLower m))⟩) := by
  rcases h with h | h
  · simp [handle_incoming_request, h, raise_allowed_methods]
  · by_cases hm : method ∈ METH_ALL
    · simp [handle_incoming_request, hm, get_handler_method, h, raise_allowed_methods]
    · simp [handle_incoming_request, hm, raise_allowed_methods]

/-- C7 witness: a handler defining only `get`, hit with `PATCH`. -/
theorem claim7_witness :
    handle_incoming_request (fun s => s == "get") "PATCH" {} ⟨none, none, ""⟩
        (fun _ _ => (.plain .other, none)) =
      .error (.methodNotAllowed ⟨405, "PATCH", ["GET"]⟩) :=
  claim7_theorem (fun s => s == "get") "PATCH" {} ⟨none, none, ""⟩
    (fun _ _ => (.plain .other, none)) (Or.inr rfl)

/-- C8: with a declared body surface, an absent `Content-Type` yields the
missing-content-type body error, an unsupported `Content-Type` yields the
unexpected-content-type error naming the offending value, and an
unparseable `application/json` body yields the single body `FieldError`
`'body is not a json'`; each such failure is surfaced as an HTTP 400 with
the structured envelope (the handler is not invoked and no server-side
failure escapes). -/
theorem claim8_theorem (ba : BodyAnn) (req : BodyRequest) (ann : ExtractAnnotations)
    (hasAttr : String → Bool) (method : String)
    (handler : List (String × PyVal) → Option WireResponse →
      MethodResponse × Option WireResponse) :
    (req.contentType = none →
      validate_body_data ba req =
        .errs [⟨["body"], "missing Content-Type header", "type_error.type"⟩]) ∧
    (∀ ct, req.contentType = some ct → ct ≠ "application/json" →
      ct ≠ "text/plain" → ct ≠ "application/x-www-form-urlencoded" →
      validate_body_data ba req =
        .errs [⟨["body"],
          "cannot fetch body data. Content-Type '" ++ ct ++ "' not allowed here.",
          "type_error.type"⟩]) ∧
    (req.contentType = some "application/json" → req.jsonResult = none →
      validate_body_data ba req =
        .errs [⟨["body"], "body is not a json", "type_error.type"⟩]) ∧
    (∀ es, method ∈ METH_ALL → hasAttr (strToLower method) = true →
      ann.response ≠ some false → ann.body = some ba →
      validate_body_data ba req = .errs es →
      handle_incoming_request hasAttr method ann req handler =
        .ok (⟨0, 400, some "application/json",
              some ⟨some ((extract_data ann req).validation_errors), none⟩⟩, false) ∧
      ("body", some es) ∈ (extract_data ann req).validation_errors) := by
  refine ⟨?_, ?_, ?_, ?_⟩
  · intro h
    simp [validate_body_data, fetch_body_data, h,
      gef_pydantic_like_answer_by_custom_message]
  · intro ct h h1 h2 h3
    simp [validate_body_data, fetch_body_data, h, h1, h2, h3,
      gef_pydantic_like_answer_by_custom_message]
  · intro h hj
    simp [validate_body_data, fetch_body_data, h, hj,
      gef_pydantic_like_answer_by_custom_message]
  · intro es hmeth hattr hresp hbody hval
    have hmem : ("body", some es) ∈ (extract_data ann req).validation_errors := by
      simp [extract_data, hbody, hval, surface_data, bind_surface, List.mem_append]
    have hne : (extract_data ann req).validation_errors ≠ [] :=
      List.ne_nil_of_mem hmem
    refine ⟨?_, hmem⟩
    simp only [handle_incoming_request, get_handler_method, hattr, if_true,
      if_neg (not_not_intro hmeth)]
    cases hr : ann.response with
    | none => rw [if_pos hne]; rfl
    | some b =>
      cases b with
      | false => exact absurd hr hresp
      | true => rw [if_pos hne]; rfl

/-- C8 witness: a declared pydantic body with the `Content-Type` header
absent. -/
theorem claim8_witness :
    validate_body_data (.modelT (.ok 1)) ⟨none, none, ""⟩ =
      .errs [⟨["body"], "missing Content-Type header", "type_error.type"⟩] ∧
    handle_incoming_request (fun _ => true) "GET" { body := some (.modelT (.ok 1)) }
        ⟨none, none, ""⟩ (fun _ _ => (.plain .other, none)) =
      .ok (⟨0, 400, some "application/json",
            some ⟨some [("body",
              some [⟨["body"], "missing Content-Type header", "type_error.type"⟩])],
              none⟩⟩,
          false) := by
  have h := claim8_theorem (.modelT (.ok 1)) ⟨none, none, ""⟩
    { body := some (.modelT (.ok 1)) } (fun _ => true) "GET"
    (fun _ _ => (.plain .other, none))
  refine ⟨h.1 rfl, ?_⟩
  exact (h.2.2.2 [⟨["body"], "missing Content-Type header", "type_error.type"⟩]
    (by decide) rfl (by decide) rfl (h.1 rfl)).1
